import Mathlib

/-!
Verification development for the QuickAnimations bootstrap/provisioning core
(`src/QuickAnimations.py`).  The Python source is shallowly embedded as pure
Lean functions: every external effect (subprocess invocation, download,
filesystem probe) is replaced by an input field of an environment record, and
the functions return the observable behaviour (step statuses, written marker
file, filesystem events, printed lines).
-/

namespace QuickAnimations

/-- Status of one setup step, mirroring the `_set_check` states
`pending | active | done | error`. -/
inductive Status where
  | pending
  | active
  | done
  | error
deriving DecidableEq, Repr, Fintype

/-- The five bootstrap steps of the setup checklist (`self.checks` keys). -/
inductive StepKey where
  | python
  | venv
  | pip
  | manim
  | ffmpeg
deriving DecidableEq, Repr, Fintype

/-- Position of a step in the linear order of the worker. -/
def StepKey.idx : StepKey → Nat
  | .python => 0
  | .venv => 1
  | .pip => 2
  | .manim => 3
  | .ffmpeg => 4

/-- Result of a completed `subprocess.run` call. -/
structure RunRes where
  returncode : Int
  stdout : String
  stderr : String
deriving DecidableEq, Repr

/-- Outcome of a `subprocess.run` call: completion, a raised
`FileNotFoundError`, or any other raised exception (e.g. `TimeoutExpired`);
the string is the exception's `str(e)` form. -/
inductive Proc where
  | ok (r : RunRes)
  | fnf (msg : String)
  | exn (msg : String)
deriving DecidableEq, Repr

/-- A JSON scalar as used in the setup marker object. -/
inductive JVal where
  | s (v : String)
  | b (v : Bool)
deriving DecidableEq, Repr

/-- The marker JSON object, as the ordered key/value list `json.dump` writes. -/
abbrev MarkerJson := List (String × JVal)

/-- `os.path.join` for the Windows paths the program builds
(`os.path.join("", x) = x`, otherwise joined with a backslash). -/
def ospJoin (a b : String) : String :=
  if a = "" then b else a ++ "\\" ++ b

/-- `PYTHON_VERSION` constant of the source. -/
def PYTHON_VERSION : String := "3.11.9"

/-- `APP_DIR = os.path.join(os.path.expanduser("~"), ".quickanimations")`,
parameterised by the user's home directory. -/
def APP_DIR (home : String) : String := ospJoin home ".quickanimations"

/-- `VENV_DIR = os.path.join(APP_DIR, "venv")`. -/
def VENV_DIR (home : String) : String := ospJoin (APP_DIR home) "venv"

/-- Initial value of the process-wide global `PYTHON_EXE`
(`os.path.join(VENV_DIR, "Scripts", "python.exe")`). -/
def PYTHON_EXE_init (home : String) : String :=
  ospJoin (ospJoin (VENV_DIR home) "Scripts") "python.exe"

/-- `SETUP_MARKER = os.path.join(APP_DIR, "setup_complete.json")`. -/
def SETUP_MARKER (home : String) : String :=
  ospJoin (APP_DIR home) "setup_complete.json"

/-- The marker object written at the end of `_install_worker`
(`{"python_version": PYTHON_VERSION, "venv_dir": VENV_DIR,
"python_exe": PYTHON_EXE}` with `PYTHON_EXE` the current global value `g`). -/
def bootstrapMarker (home g : String) : MarkerJson :=
  [("python_version", JVal.s PYTHON_VERSION),
   ("venv_dir", JVal.s (VENV_DIR home)),
   ("python_exe", JVal.s g)]

/-- Statuses of the five checklist entries. -/
structure Statuses where
  python : Status := .pending
  venv : Status := .pending
  pip : Status := .pending
  manim : Status := .pending
  ffmpeg : Status := .pending
deriving DecidableEq, Repr

/-- Read the status of one step. -/
def Statuses.get (s : Statuses) : StepKey → Status
  | .python => s.python
  | .venv => s.venv
  | .pip => s.pip
  | .manim => s.manim
  | .ffmpeg => s.ffmpeg

/-- `_set_check(key, state)`: update the status of one step. -/
def setSt (s : Statuses) (k : StepKey) (v : Status) : Statuses :=
  match k with
  | .python => { s with python := v }
  | .venv => { s with venv := v }
  | .pip => { s with pip := v }
  | .manim => { s with manim := v }
  | .ffmpeg => { s with ffmpeg := v }

/-- Observable filesystem events of one `_install_worker` run. -/
inductive Ev where
  | mkdirApp
  | rmtreeVenv
  | createVenv (pre : Option (List String))
  | writeMarker (m : MarkerJson)
deriving DecidableEq, Repr

/-- Outcome of `_download_file`: it either completes or raises
`RuntimeError(f"İndirme hatası: {e}")`; the string is the raised message. -/
inductive DlRes where
  | ok
  | raised (msg : String)
deriving DecidableEq, Repr

/-- Oracle for all external effects the worker performs, one field per call
site of `_install_worker` in source order.  `venvDir0` is the initial state of
`VENV_DIR`: `none` when the directory is absent, `some files` when a previous
environment with those files exists.  `rmtreeLeft` is the state of `VENV_DIR`
right after `shutil.rmtree(VENV_DIR, ignore_errors=True)`: `none` when the
removal fully succeeded, `some files` when removal errors were silently
ignored and those files survived (e.g. locked files on Windows). -/
structure WEnv where
  findPython : Option String
  downloadPython : Option String
  venvDir0 : Option (List String)
  rmtreeLeft : Option (List String)
  venvCreate : Proc
  pipVersion : Proc
  getPipDl : DlRes
  getPipRun : Proc
  pipUpgrade : Proc
  manimInstall : Proc
  ffImport : Proc
  ffVersion : Proc
  imageioInstall : Proc
deriving DecidableEq, Repr

/-- Everything one `_install_worker` run leaves behind: final step statuses,
filesystem events in order, the marker written (if any), the message and step
key handed to `_fail` (if any), and whether `_on_install_complete` ran. -/
structure WOut where
  st : Statuses
  events : List Ev
  marker : Option MarkerJson
  failMsg : Option String
  failKey : Option StepKey
  completed : Bool
deriving DecidableEq, Repr

/-- `_fail(message, check_key)` with a step key: marks that step `error`. -/
def failAt (st : Statuses) (evs : List Ev) (msg : String) (k : StepKey) : WOut :=
  ⟨setSt st k .error, evs, none, some msg, some k, false⟩

/-- The worker's outer `except Exception` handler:
`self._fail(f"Beklenmeyen hata: {str(e)[:200]}")` — no step key, so no step is
marked `error`. -/
def outerFail (st : Statuses) (evs : List Ev) (emsg : String) : WOut :=
  ⟨st, evs, none, some ("Beklenmeyen hata: " ++ String.take emsg 200), none, false⟩

/-- Tail of `_install_worker`: write the marker with the current global
`PYTHON_EXE` value `g` and schedule `_on_install_complete`. -/
def finishInstall (home g : String) (st : Statuses) (evs : List Ev) : WOut :=
  let m := bootstrapMarker home g
  ⟨setSt st .ffmpeg .done, evs ++ [Ev.writeMarker m], some m, none, none, true⟩

/-- After the step-5 `try` block: `if not ffmpeg_ok:` install the
`imageio[ffmpeg]` fallback (result ignored, exceptions propagate to the outer
handler), then mark ffmpeg done and finish. -/
def afterFfTry (home g : String) (env : WEnv) (st : Statuses) (evs : List Ev)
    (ffmpegOk : Bool) : WOut :=
  if ffmpegOk then finishInstall home g st evs
  else
    match env.imageioInstall with
    | .ok _ => finishInstall home g st evs
    | .fnf m => outerFail st evs m
    | .exn m => outerFail st evs m

/-- Step 5 of `_install_worker` (check FFmpeg): a `try` block running the
manim file-ops import probe and the `ffmpeg -version` probe, catching only
`FileNotFoundError`; `ffmpeg_ok` is set exactly when the version probe exits 0. -/
def step5 (home g : String) (env : WEnv) (st : Statuses) (evs : List Ev) : WOut :=
  let st := setSt st .ffmpeg .active
  match env.ffImport with
  | .exn m => outerFail st evs m
  | .fnf _ => afterFfTry home g env st evs false
  | .ok _ =>
    match env.ffVersion with
    | .exn m => outerFail st evs m
    | .fnf _ => afterFfTry home g env st evs false
    | .ok ff => afterFfTry home g env st evs (ff.returncode == 0)

/-- Step 4 of `_install_worker`: `pip install manim`; non-zero exit fails the
step with a 300-character stderr prefix, an exception reaches the outer
handler. -/
def step4 (home g : String) (env : WEnv) (st : Statuses) (evs : List Ev) : WOut :=
  let st := setSt st .manim .active
  match env.manimInstall with
  | .ok r =>
    if r.returncode != 0 then
      failAt st evs ("Manim yüklenemedi: " ++ String.take r.stderr 300) .manim
    else
      step5 home g env (setSt st .manim .done) evs
  | .fnf m => outerFail st evs m
  | .exn m => outerFail st evs m

/-- Step 3 of `_install_worker`: probe `pip --version`; when it exits non-zero,
download `get-pip.py` (a download error raises) and run it (non-zero exit fails
the step); then unconditionally self-upgrade pip, whose result is ignored but
whose exceptions propagate. -/
def step3 (home g : String) (env : WEnv) (st : Statuses) (evs : List Ev) : WOut :=
  let st := setSt st .pip .active
  match env.pipVersion with
  | .fnf m => outerFail st evs m
  | .exn m => outerFail st evs m
  | .ok r =>
    if r.returncode != 0 then
      match env.getPipDl with
      | .raised m => outerFail st evs m
      | .ok =>
        match env.getPipRun with
        | .fnf m => outerFail st evs m
        | .exn m => outerFail st evs m
        | .ok r2 =>
          if r2.returncode != 0 then
            failAt st evs ("pip kurulamadı: " ++ String.take r2.stderr 200) .pip
          else
            match env.pipUpgrade with
            | .fnf m => outerFail st evs m
            | .exn m => outerFail st evs m
            | .ok _ => step4 home g env (setSt st .pip .done) evs
    else
      match env.pipUpgrade with
      | .fnf m => outerFail st evs m
      | .exn m => outerFail st evs m
      | .ok _ => step4 home g env (setSt st .pip .done) evs

/-- Step 2 of `_install_worker`: when `VENV_DIR` exists,
`shutil.rmtree(VENV_DIR, ignore_errors=True)` is invoked first — removal
errors are silently ignored, so the directory state it leaves behind
(`env.rmtreeLeft`) may still hold files; then `python -m venv VENV_DIR` runs
on that state, recorded in the `createVenv` event; non-zero exit fails the
step with a 200-character stderr prefix. -/
def step2 (home g : String) (env : WEnv) (st : Statuses) (evs : List Ev) : WOut :=
  let st := setSt st .venv .active
  let evs := evs ++ (if env.venvDir0.isSome then [Ev.rmtreeVenv] else [])
  let dirAtCreate : Option (List String) :=
    if env.venvDir0.isSome then env.rmtreeLeft else env.venvDir0
  let evs := evs ++ [Ev.createVenv dirAtCreate]
  match env.venvCreate with
  | .fnf m => outerFail st evs m
  | .exn m => outerFail st evs m
  | .ok r =>
    if r.returncode != 0 then
      failAt st evs ("venv oluşturulamadı: " ++ String.take r.stderr 200) .venv
    else
      step3 home g env (setSt st .venv .done) evs

/-- The whole `_install_worker` body: make `APP_DIR`, locate or download a
base interpreter (step 1), then run steps 2–5 and finally write the setup
marker.  `g` is the value of the process-wide global `PYTHON_EXE` when the
worker runs. -/
def install_worker (home g : String) (env : WEnv) : WOut :=
  let st : Statuses := {}
  let evs : List Ev := [Ev.mkdirApp]
  let st := setSt st .python .active
  match env.findPython with
  | some _ => step2 home g env (setSt st .python .done) evs
  | none =>
    match env.downloadPython with
    | none =>
      failAt st evs "Python indirilemedi. İnternet bağlantınızı kontrol edin." .python
    | some _ => step2 home g env (setSt st .python .done) evs

/-- Python's `str.strip()`: drop leading and trailing whitespace. -/
def pyStrip (s : String) : String :=
  String.mk (((s.toList.dropWhile Char.isWhitespace).reverse.dropWhile
    Char.isWhitespace).reverse)

/-- Split a character list on a separator character (Python's
`str.split(sep)` for a one-character separator). -/
def splitOnChar (sep : Char) : List Char → List (List Char)
  | [] => [[]]
  | c :: rest =>
    let r := splitOnChar sep rest
    if c == sep then [] :: r
    else
      match r with
      | [] => [[c]]
      | h :: t => (c :: h) :: t

/-- Python's `s.split(".")` and friends, for a one-character separator. -/
def pySplit (s : String) (sep : Char) : List String :=
  (splitOnChar sep s.toList).map String.mk

/-! ## Setup-readiness check (`is_setup_complete`) -/

/-- External inputs of one `is_setup_complete()` call.  `markerParse` is
`none` when opening or JSON-parsing the marker raises (the `except` path);
`some px` when the parse succeeded, with `px` the optional `"python_exe"`
field of the parsed object. -/
structure SetupEnv where
  markerExists : Bool
  markerParse : Option (Option String)
  isfile : String → Bool
  manimProbe : String → Proc

/-- The interpreter path `is_setup_complete` ends up testing: the saved
`python_exe` when the marker parses and that file exists, else the incoming
global value `p`. -/
def effectiveExe (env : SetupEnv) (p : String) : String :=
  if env.markerExists then
    match env.markerParse with
    | some px =>
      let saved := px.getD p
      if env.isfile saved then saved else p
    | none => p
  else p

/-- `is_setup_complete()`: returns the boolean result together with the value
of the global `PYTHON_EXE` after the call (the function rebinds the global to
the saved path when that file exists). -/
def is_setup_complete (env : SetupEnv) (p : String) : Bool × String :=
  if !env.markerExists then (false, p)
  else
    let p1 :=
      match env.markerParse with
      | some px =>
        let saved := px.getD p
        if env.isfile saved then saved else p
      | none => p
    if !env.isfile p1 then (false, p1)
    else
      match env.manimProbe p1 with
      | .ok r => (pyStrip r.stdout == "ok", p1)
      | .fnf _ => (false, p1)
      | .exn _ => (false, p1)

/-- Whether the `import manim` probe of `is_setup_complete` on interpreter `x`
prints `ok`. -/
def manimProbeOk (env : SetupEnv) (x : String) : Bool :=
  match env.manimProbe x with
  | .ok r => pyStrip r.stdout == "ok"
  | .fnf _ => false
  | .exn _ => false

/-! ## Skip-validation (`_skip_setup`'s `validate` worker) -/

/-- `os.path.dirname`: everything before the last path separator. -/
def dirname (p : String) : String :=
  String.mk ((((p.toList.reverse).dropWhile
    (fun c => !(c == '\\' || c == '/'))).drop 1).reverse)

/-- The marker object written on a successful skip-validation
(`{"python_version": "custom", "venv_dir": dirname(dirname(chosen)),
"python_exe": chosen, "skipped_setup": True}`). -/
def skipMarker (chosen : String) : MarkerJson :=
  [("python_version", JVal.s "custom"),
   ("venv_dir", JVal.s (dirname (dirname chosen))),
   ("python_exe", JVal.s chosen),
   ("skipped_setup", JVal.b true)]

/-- Result of one skip-validation run: the marker-file state after the run
(the prior state is passed in), the global `PYTHON_EXE` after the run, whether
`_on_skip_success` ran, and the error text handed to `_on_skip_fail` (if any). -/
structure SkipOut where
  marker : Option MarkerJson
  pythonExe : String
  success : Bool
  reported : Option String
deriving DecidableEq, Repr

/-- The `validate` worker of `_skip_setup`: probe `chosen -c "import manim"`;
on stdout `ok` write the skip marker and rebind the global; otherwise report
the first 200 characters of stderr (or a fixed message when stderr is empty);
on a raised exception report `str(e)`.  `prior` is the marker file's previous
state and `g` the previous global `PYTHON_EXE`. -/
def skip_validate (chosen : String) (probe : Proc) (prior : Option MarkerJson)
    (g : String) : SkipOut :=
  match probe with
  | .ok r =>
    if pyStrip r.stdout == "ok" then
      ⟨some (skipMarker chosen), chosen, true, none⟩
    else
      let err := if r.stderr != "" then String.take r.stderr 200
                 else "manim import edilemedi"
      ⟨prior, g, false, some err⟩
  | .fnf m => ⟨prior, g, false, some m⟩
  | .exn m => ⟨prior, g, false, some m⟩

/-! ## Interpreter locator (`find_system_python`) -/

/-- Does the character list `n` occur at the head of `h`? -/
def lstartsWith : List Char → List Char → Bool
  | _, [] => true
  | [], _ :: _ => false
  | a :: as, b :: bs => a == b && lstartsWith as bs

/-- Does the character list `n` occur anywhere inside `h`
(Python's `n in h` on strings)? -/
def lcontains : List Char → List Char → Bool
  | [], n => n.isEmpty
  | a :: as, n => lstartsWith (a :: as) n || lcontains as n

/-- Python's `int()` on a string: optional surrounding whitespace, optional
sign, then a nonempty digit string; `none` models a raised `ValueError`. -/
def pyInt? (s : String) : Option Int :=
  let t := (pyStrip s).toList
  let core : Option (Bool × List Char) :=
    match t with
    | '-' :: rest => some (true, rest)
    | '+' :: rest => some (false, rest)
    | rest => some (false, rest)
  match core with
  | some (neg, ds) =>
    if ds.isEmpty || !(ds.all Char.isDigit) then none
    else
      let v : Int := ds.foldl (fun n c => n * 10 + (Int.ofNat (c.toNat - 48))) 0
      some (if neg then -v else v)
  | none => none

/-- External inputs of `find_system_python`: the three `shutil.which` results,
the `LOCALAPPDATA` environment variable (`""` when unset), the file-existence
predicate, and the `--version` probe of each candidate path. -/
structure LocEnv where
  whichPython : Option String
  whichPython3 : Option String
  whichPy : Option String
  localAppData : String
  isfile : String → Bool
  probe : String → Proc

/-- The candidate list of `find_system_python`, in source order: the three
`which` results, then for each version the `LOCALAPPDATA` install path and the
`C:\PythonNNN` path. -/
def candidates (env : LocEnv) : List (Option String) :=
  [env.whichPython, env.whichPython3, env.whichPy]
    ++ (["311", "312", "310", "39", "313"].flatMap (fun v =>
      [some (ospJoin env.localAppData
        ("Programs\\Python\\Python" ++ v ++ "\\python.exe")),
       some ("C:\\Python" ++ v ++ "\\python.exe")]))

/-- The per-candidate acceptance test of `find_system_python`: the version
probe completes, its stripped stdout contains `"Python 3."`, splitting on `.`
gives at least two parts, and the second part parses as an integer of value at
least 8.  Probe exceptions and parse failures yield `false` (the `except
Exception: continue` path). -/
def candidateAccepts (env : LocEnv) (p : String) : Bool :=
  match env.probe p with
  | .ok r =>
    let v := pyStrip r.stdout
    lcontains v.toList ("Python 3.").toList &&
      (let parts := pySplit v '.'
       decide (parts.length ≥ 2) &&
         (match pyInt? (parts.getD 1 "") with
          | some minor => decide (minor ≥ 8)
          | none => false))
  | .fnf _ => false
  | .exn _ => false

/-- The candidate loop of `find_system_python` over a list of optional paths. -/
def findPyLoop (env : LocEnv) : List (Option String) → Option String
  | [] => none
  | c :: rest =>
    match c with
    | some p =>
      if p != "" && env.isfile p then
        (if candidateAccepts env p then some p else findPyLoop env rest)
      else findPyLoop env rest
    | none => findPyLoop env rest

/-- `find_system_python()`: try every candidate in order, skipping falsy or
non-file paths and every candidate whose probe fails; `none` when the list is
exhausted. -/
def find_system_python (env : LocEnv) : Option String :=
  findPyLoop env (candidates env)

/-! ## Headless CLI (`_process_svg_cli` and `main` dispatch) -/

/-- `pathlib.Path(p).name`: the last path component. -/
def baseName (p : String) : String :=
  String.mk ((p.toList.reverse.takeWhile
    (fun c => !(c == '\\' || c == '/'))).reverse)

/-- `pathlib.Path(p).stem`: the last component without its final suffix
(a leading dot does not start a suffix). -/
def stem (p : String) : String :=
  let n := baseName p
  let beforeDot := (n.toList.reverse).dropWhile (fun c => !(c == '.'))
  match beforeDot with
  | [] => n
  | [_] => n
  | _ :: rest => String.mk rest.reverse

/-- The output path `_process_svg_cli` passes to manim:
`os.path.join(os.path.expanduser("~/Desktop"), f"{stem}_animation.mp4")`. -/
def outputPath (home svgPath : String) : String :=
  ospJoin (home ++ "/Desktop") (stem svgPath ++ "_animation.mp4")

/-- External inputs of one headless run: the pre-render file-existence
predicate, the setup-check inputs, the renderer's exit code (captured but
never inspected by `_process_svg_cli`), and the post-render file-existence
predicate. -/
structure CliWorld where
  isfile : String → Bool
  setupEnv : SetupEnv
  renderExit : Int
  outputExistsAfter : String → Bool

/-- Observable behaviour of one `_process_svg_cli` call: the printed lines,
whether `is_setup_complete` was consulted, whether the renderer was invoked,
and the global `PYTHON_EXE` after the call. -/
structure CliOut where
  printed : List String
  setupChecked : Bool
  renderInvoked : Bool
  pythonExe : String
deriving DecidableEq, Repr

/-- `_process_svg_cli(svg_path)`: missing file → error line, setup never
consulted; setup incomplete → error line, no render; otherwise render and
print the success line exactly when the output file exists afterwards. -/
def process_svg_cli (home g : String) (w : CliWorld) (svgPath : String) : CliOut :=
  if !w.isfile svgPath then
    ⟨["Hata: Dosya bulunamadı: " ++ svgPath], false, false, g⟩
  else
    let setup := is_setup_complete w.setupEnv g
    if !setup.1 then
      ⟨["Hata: Ortam henüz kurulmamış. Önce GUI\x27yi çalıştırın: python QuickAnimations.py"],
       true, false, setup.2⟩
    else
      let op := outputPath home svgPath
      if w.outputExistsAfter op then
        ⟨["✓ Video oluşturuldu: " ++ op], true, true, setup.2⟩
      else
        ⟨["✗ Video oluşturulamadı."], true, true, setup.2⟩

/-- What `main()` does for a given argument vector (`sys.argv[1:]`). -/
inductive MainOut where
  | setupGui
  | usage (msg : String)
  | cliRun (path : String) (out : CliOut)
  | gui (setupComplete : Bool)
deriving DecidableEq, Repr

/-- The argument dispatch of `main()`: no arguments → GUI gated by
`is_setup_complete`; `--setup` → forced setup wizard; `--cli` with a second
argument → headless run, without one → usage line; any other first argument →
headless run on it. -/
def mainDispatch (home g : String) (w : CliWorld) (args : List String) : MainOut :=
  match args with
  | [] => .gui (is_setup_complete w.setupEnv g).1
  | arg :: rest =>
    if arg == "--setup" then .setupGui
    else if arg == "--cli" then
      match rest with
      | p :: _ => .cliRun p (process_svg_cli home g w p)
      | [] => .usage "Kullanım: python QuickAnimations.py --cli \"dosya.svg\""
    else .cliRun arg (process_svg_cli home g w arg)

/-! ## Helper lemmas about `_install_worker` -/

/-- The venv-related event segment of a run that reaches step 2. -/
def venvSeg (env : WEnv) : List Ev :=
  (if env.venvDir0.isSome then [Ev.rmtreeVenv] else [])
    ++ [Ev.createVenv (if env.venvDir0.isSome then env.rmtreeLeft else env.venvDir0)]

lemma afterFfTry_events (home g : String) (env : WEnv) (st : Statuses)
    (evs : List Ev) (b : Bool) :
    (afterFfTry home g env st evs b).events = evs
      ∨ (afterFfTry home g env st evs b).events
          = evs ++ [Ev.writeMarker (bootstrapMarker home g)] := by
  cases b <;> cases h : env.imageioInstall <;>
    simp [afterFfTry, finishInstall, outerFail, h]

lemma step5_events (home g : String) (env : WEnv) (st : Statuses) (evs : List Ev) :
    (step5 home g env st evs).events = evs
      ∨ (step5 home g env st evs).events
          = evs ++ [Ev.writeMarker (bootstrapMarker home g)] := by
  cases h1 : env.ffImport with
  | exn m => simp [step5, h1, outerFail]
  | fnf m => simpa [step5, h1] using afterFfTry_events home g env _ evs false
  | ok r =>
    cases h2 : env.ffVersion with
    | exn m => simp [step5, h1, h2, outerFail]
    | fnf m => simpa [step5, h1, h2] using afterFfTry_events home g env _ evs false
    | ok ff =>
      simpa [step5, h1, h2] using
        afterFfTry_events home g env _ evs (ff.returncode == 0)

lemma step4_events (home g : String) (env : WEnv) (st : Statuses) (evs : List Ev) :
    (step4 home g env st evs).events = evs
      ∨ (step4 home g env st evs).events
          = evs ++ [Ev.writeMarker (bootstrapMarker home g)] := by
  cases h1 : env.manimInstall with
  | exn m => simp [step4, h1, outerFail]
  | fnf m => simp [step4, h1, outerFail]
  | ok r =>
    by_cases hrc : r.returncode = 0
    · simpa [step4, h1, hrc] using step5_events home g env _ evs
    · simp [step4, h1, hrc, failAt]

lemma step3_events (home g : String) (env : WEnv) (st : Statuses) (evs : List Ev) :
    (step3 home g env st evs).events = evs
      ∨ (step3 home g env st evs).events
          = evs ++ [Ev.writeMarker (bootstrapMarker home g)] := by
  cases h1 : env.pipVersion with
  | exn m => simp [step3, h1, outerFail]
  | fnf m => simp [step3, h1, outerFail]
  | ok r =>
    by_cases hrc : r.returncode = 0
    · cases h2 : env.pipUpgrade with
      | exn m => simp [step3, h1, hrc, h2, outerFail]
      | fnf m => simp [step3, h1, hrc, h2, outerFail]
      | ok r2 => simpa [step3, h1, hrc, h2] using step4_events home g env _ evs
    · cases h2 : env.getPipDl with
      | raised m => simp [step3, h1, hrc, h2, outerFail]
      | ok =>
        cases h3 : env.getPipRun with
        | exn m => simp [step3, h1, hrc, h2, h3, outerFail]
        | fnf m => simp [step3, h1, hrc, h2, h3, outerFail]
        | ok r3 =>
          by_cases hrc3 : r3.returncode = 0
          · cases h4 : env.pipUpgrade with
            | exn m => simp [step3, h1, hrc, h2, h3, hrc3, h4, outerFail]
            | fnf m => simp [step3, h1, hrc, h2, h3, hrc3, h4, outerFail]
            | ok r4 =>
              simpa [step3, h1, hrc, h2, h3, hrc3, h4] using
                step4_events home g env _ evs
          · simp [step3, h1, hrc, h2, h3, hrc3, failAt]

lemma step2_events (home g : String) (env : WEnv) (st : Statuses) (evs : List Ev) :
    (step2 home g env st evs).events = evs ++ venvSeg env
      ∨ (step2 home g env st evs).events
          = evs ++ venvSeg env ++ [Ev.writeMarker (bootstrapMarker home g)] := by
  cases h1 : env.venvCreate with
  | exn m => simp [step2, h1, outerFail, venvSeg]
  | fnf m => simp [step2, h1, outerFail, venvSeg]
  | ok r =>
    by_cases hrc : r.returncode = 0
    · have := step3_events home g env (setSt (setSt st .venv .active) .venv .done)
        (evs ++ venvSeg env)
      simpa [step2, h1, hrc, venvSeg, List.append_assoc] using this
    · simp [step2, h1, hrc, failAt, venvSeg]

lemma worker_events (home g : String) (env : WEnv) :
    (install_worker home g env).events = [Ev.mkdirApp]
      ∨ (install_worker home g env).events = [Ev.mkdirApp] ++ venvSeg env
      ∨ (install_worker home g env).events
          = [Ev.mkdirApp] ++ venvSeg env ++ [Ev.writeMarker (bootstrapMarker home g)] := by
  cases h1 : env.findPython with
  | some p =>
    have := step2_events home g env (setSt (setSt {} .python .active) .python .done)
      [Ev.mkdirApp]
    rcases this with h | h
    · exact Or.inr (Or.inl (by simpa [install_worker, h1] using h))
    · exact Or.inr (Or.inr (by simpa [install_worker, h1] using h))
  | none =>
    cases h2 : env.downloadPython with
    | none => exact Or.inl (by simp [install_worker, h1, h2, failAt])
    | some p =>
      have := step2_events home g env (setSt (setSt {} .python .active) .python .done)
        [Ev.mkdirApp]
      rcases this with h | h
      · exact Or.inr (Or.inl (by simpa [install_worker, h1, h2] using h))
      · exact Or.inr (Or.inr (by simpa [install_worker, h1, h2] using h))

/-- Every possible final shape of an `_install_worker` run: success, one of
the four keyed step failures (`_fail` with a step key), or one of the four
generic exception exits (`_fail` without a key, from the outer handler); the
last disjunct also records which step-5 call raised. -/
def WShape (home g : String) (env : WEnv) (o : WOut) : Prop :=
  (o.st = ⟨.done, .done, .done, .done, .done⟩
      ∧ o.marker = some (bootstrapMarker home g)
      ∧ o.failKey = none ∧ o.failMsg = none ∧ o.completed = true)
  ∨ (o.st = ⟨.error, .pending, .pending, .pending, .pending⟩ ∧ o.marker = none
      ∧ o.failKey = some .python ∧ o.failMsg.isSome ∧ o.completed = false)
  ∨ (o.st = ⟨.done, .active, .pending, .pending, .pending⟩ ∧ o.marker = none
      ∧ o.failKey = none ∧ o.failMsg.isSome ∧ o.completed = false)
  ∨ (o.st = ⟨.done, .error, .pending, .pending, .pending⟩ ∧ o.marker = none
      ∧ o.failKey = some .venv ∧ o.failMsg.isSome ∧ o.completed = false)
  ∨ (o.st = ⟨.done, .done, .active, .pending, .pending⟩ ∧ o.marker = none
      ∧ o.failKey = none ∧ o.failMsg.isSome ∧ o.completed = false)
  ∨ (o.st = ⟨.done, .done, .error, .pending, .pending⟩ ∧ o.marker = none
      ∧ o.failKey = some .pip ∧ o.failMsg.isSome ∧ o.completed = false)
  ∨ (o.st = ⟨.done, .done, .done, .active, .pending⟩ ∧ o.marker = none
      ∧ o.failKey = none ∧ o.failMsg.isSome ∧ o.completed = false)
  ∨ (o.st = ⟨.done, .done, .done, .error, .pending⟩ ∧ o.marker = none
      ∧ o.failKey = some .manim ∧ o.failMsg.isSome ∧ o.completed = false)
  ∨ (o.st = ⟨.done, .done, .done, .done, .active⟩ ∧ o.marker = none
      ∧ o.failKey = none ∧ o.failMsg.isSome ∧ o.completed = false
      ∧ ((∃ m, env.ffImport = .exn m) ∨ (∃ m, env.ffVersion = .exn m)
         ∨ (∃ m, env.imageioInstall = .exn m) ∨ (∃ m, env.imageioInstall = .fnf m)))

lemma afterFfTry_shape (home g : String) (env : WEnv) (evs : List Ev) (b : Bool) :
    WShape home g env
      (afterFfTry home g env ⟨.done, .done, .done, .done, .active⟩ evs b) := by
  cases b with
  | true =>
    simp only [WShape]
    exact Or.inl (by simp [afterFfTry, finishInstall, setSt])
  | false =>
    cases h : env.imageioInstall with
    | ok r =>
      simp only [WShape]
      exact Or.inl (by simp [afterFfTry, h, finishInstall, setSt])
    | fnf m =>
      simp only [WShape]
      refine Or.inr (Or.inr (Or.inr (Or.inr (Or.inr (Or.inr (Or.inr (Or.inr ?_)))))))
      refine ⟨?_, ?_, ?_, ?_, ?_, Or.inr (Or.inr (Or.inr ⟨m, h⟩))⟩ <;>
        simp [afterFfTry, h, outerFail]
    | exn m =>
      simp only [WShape]
      refine Or.inr (Or.inr (Or.inr (Or.inr (Or.inr (Or.inr (Or.inr (Or.inr ?_)))))))
      refine ⟨?_, ?_, ?_, ?_, ?_, Or.inr (Or.inr (Or.inl ⟨m, h⟩))⟩ <;>
        simp [afterFfTry, h, outerFail]

lemma step5_shape (home g : String) (env : WEnv) (evs : List Ev) :
    WShape home g env
      (step5 home g env ⟨.done, .done, .done, .done, .pending⟩ evs) := by
  cases h1 : env.ffImport with
  | exn m =>
    simp only [WShape]
    refine Or.inr (Or.inr (Or.inr (Or.inr (Or.inr (Or.inr (Or.inr (Or.inr ?_)))))))
    refine ⟨?_, ?_, ?_, ?_, ?_, Or.inl ⟨m, h1⟩⟩ <;>
      simp [step5, h1, outerFail, setSt]
  | fnf m =>
    have := afterFfTry_shape home g env evs false
    simpa [step5, h1, setSt] using this
  | ok r =>
    cases h2 : env.ffVersion with
    | exn m =>
      simp only [WShape]
      refine Or.inr (Or.inr (Or.inr (Or.inr (Or.inr (Or.inr (Or.inr (Or.inr ?_)))))))
      refine ⟨?_, ?_, ?_, ?_, ?_, Or.inr (Or.inl ⟨m, h2⟩)⟩ <;>
        simp [step5, h1, h2, outerFail, setSt]
    | fnf m =>
      have := afterFfTry_shape home g env evs false
      simpa [step5, h1, h2, setSt] using this
    | ok ff =>
      have := afterFfTry_shape home g env evs (ff.returncode == 0)
      simpa [step5, h1, h2, setSt] using this

lemma step4_shape (home g : String) (env : WEnv) (evs : List Ev) :
    WShape home g env
      (step4 home g env ⟨.done, .done, .done, .pending, .pending⟩ evs) := by
  cases h1 : env.manimInstall with
  | exn m =>
    simp only [WShape]
    refine Or.inr (Or.inr (Or.inr (Or.inr (Or.inr (Or.inr (Or.inl ?_))))))
    simp [step4, h1, outerFail, setSt]
  | fnf m =>
    simp only [WShape]
    refine Or.inr (Or.inr (Or.inr (Or.inr (Or.inr (Or.inr (Or.inl ?_))))))
    simp [step4, h1, outerFail, setSt]
  | ok r =>
    by_cases hrc : r.returncode = 0
    · have := step5_shape home g env evs
      simpa [step4, h1, hrc, setSt] using this
    · simp only [WShape]
      refine Or.inr (Or.inr (Or.inr (Or.inr (Or.inr (Or.inr (Or.inr (Or.inl ?_)))))))
      simp [step4, h1, hrc, failAt, setSt]

lemma step3_shape (home g : String) (env : WEnv) (evs : List Ev) :
    WShape home g env
      (step3 home g env ⟨.done, .done, .pending, .pending, .pending⟩ evs) := by
  have outerPip : ∀ o : WOut,
      o.st = ⟨.done, .done, .active, .pending, .pending⟩ → o.marker = none →
      o.failKey = none → o.failMsg.isSome → o.completed = false →
      WShape home g env o := by
    intro o h1 h2 h3 h4 h5
    simp only [WShape]
    exact Or.inr (Or.inr (Or.inr (Or.inr (Or.inl ⟨h1, h2, h3, h4, h5⟩))))
  cases h1 : env.pipVersion with
  | exn m => exact outerPip _ (by simp [step3, h1, outerFail, setSt]) (by simp [step3, h1, outerFail]) (by simp [step3, h1, outerFail]) (by simp [step3, h1, outerFail]) (by simp [step3, h1, outerFail])
  | fnf m => exact outerPip _ (by simp [step3, h1, outerFail, setSt]) (by simp [step3, h1, outerFail]) (by simp [step3, h1, outerFail]) (by simp [step3, h1, outerFail]) (by simp [step3, h1, outerFail])
  | ok r =>
    by_cases hrc : r.returncode = 0
    · cases h2 : env.pipUpgrade with
      | exn m => exact outerPip _ (by simp [step3, h1, hrc, h2, outerFail, setSt]) (by simp [step3, h1, hrc, h2, outerFail]) (by simp [step3, h1, hrc, h2, outerFail]) (by simp [step3, h1, hrc, h2, outerFail]) (by simp [step3, h1, hrc, h2, outerFail])
      | fnf m => exact outerPip _ (by simp [step3, h1, hrc, h2, outerFail, setSt]) (by simp [step3, h1, hrc, h2, outerFail]) (by simp [step3, h1, hrc, h2, outerFail]) (by simp [step3, h1, hrc, h2, outerFail]) (by simp [step3, h1, hrc, h2, outerFail])
      | ok r2 =>
        have := step4_shape home g env evs
        simpa [step3, h1, hrc, h2, setSt] using this
    · cases h2 : env.getPipDl with
      | raised m => exact outerPip _ (by simp [step3, h1, hrc, h2, outerFail, setSt]) (by simp [step3, h1, hrc, h2, outerFail]) (by simp [step3, h1, hrc, h2, outerFail]) (by simp [step3, h1, hrc, h2, outerFail]) (by simp [step3, h1, hrc, h2, outerFail])
      | ok =>
        cases h3 : env.getPipRun with
        | exn m => exact outerPip _ (by simp [step3, h1, hrc, h2, h3, outerFail, setSt]) (by simp [step3, h1, hrc, h2, h3, outerFail]) (by simp [step3, h1, hrc, h2, h3, outerFail]) (by simp [step3, h1, hrc, h2, h3, outerFail]) (by simp [step3, h1, hrc, h2, h3, outerFail])
        | fnf m => exact outerPip _ (by simp [step3, h1, hrc, h2, h3, outerFail, setSt]) (by simp [step3, h1, hrc, h2, h3, outerFail]) (by simp [step3, h1, hrc, h2, h3, outerFail]) (by simp [step3, h1, hrc, h2, h3, outerFail]) (by simp [step3, h1, hrc, h2, h3, outerFail])
        | ok r3 =>
          by_cases hrc3 : r3.returncode = 0
          · cases h4 : env.pipUpgrade with
            | exn m => exact outerPip _ (by simp [step3, h1, hrc, h2, h3, hrc3, h4, outerFail, setSt]) (by simp [step3, h1, hrc, h2, h3, hrc3, h4, outerFail]) (by simp [step3, h1, hrc, h2, h3, hrc3, h4, outerFail]) (by simp [step3, h1, hrc, h2, h3, hrc3, h4, outerFail]) (by simp [step3, h1, hrc, h2, h3, hrc3, h4, outerFail])
            | fnf m => exact outerPip _ (by simp [step3, h1, hrc, h2, h3, hrc3, h4, outerFail, setSt]) (by simp [step3, h1, hrc, h2, h3, hrc3, h4, outerFail]) (by simp [step3, h1, hrc, h2, h3, hrc3, h4, outerFail]) (by simp [step3, h1, hrc, h2, h3, hrc3, h4, outerFail]) (by simp [step3, h1, hrc, h2, h3, hrc3, h4, outerFail])
            | ok r4 =>
              have := step4_shape home g env evs
              simpa [step3, h1, hrc, h2, h3, hrc3, h4, setSt] using this
          · simp only [WShape]
            refine Or.inr (Or.inr (Or.inr (Or.inr (Or.inr (Or.inl ?_)))))
            simp [step3, h1, hrc, h2, h3, hrc3, failAt, setSt]

lemma step2_shape (home g : String) (env : WEnv) (evs : List Ev) :
    WShape home g env
      (step2 home g env ⟨.done, .pending, .pending, .pending, .pending⟩ evs) := by
  cases h1 : env.venvCreate with
  | exn m =>
    simp only [WShape]
    refine Or.inr (Or.inr (Or.inl ?_))
    simp [step2, h1, outerFail, setSt]
  | fnf m =>
    simp only [WShape]
    refine Or.inr (Or.inr (Or.inl ?_))
    simp [step2, h1, outerFail, setSt]
  | ok r =>
    by_cases hrc : r.returncode = 0
    · have := step3_shape home g env
        (evs ++ venvSeg env)
      simpa [step2, h1, hrc, setSt, venvSeg, List.append_assoc] using this
    · simp only [WShape]
      refine Or.inr (Or.inr (Or.inr (Or.inl ?_)))
      simp [step2, h1, hrc, failAt, setSt]

/-- Master case analysis of `_install_worker`. -/
lemma worker_master (home g : String) (env : WEnv) :
    WShape home g env (install_worker home g env) := by
  cases h1 : env.findPython with
  | some p =>
    have := step2_shape home g env [Ev.mkdirApp]
    simpa [install_worker, h1, setSt] using this
  | none =>
    cases h2 : env.downloadPython with
    | none =>
      simp only [WShape]
      refine Or.inr (Or.inl ?_)
      simp [install_worker, h1, h2, failAt, setSt]
    | some p =>
      have := step2_shape home g env [Ev.mkdirApp]
      simpa [install_worker, h1, h2, setSt] using this

/-! ## Concrete environments used by witnesses and counterexamples -/

/-- A run in which every external call succeeds, with a pre-existing
environment directory that `rmtree` removes completely. -/
def envOk : WEnv :=
  { findPython := some "C:\\Python311\\python.exe",
    downloadPython := none,
    venvDir0 := some ["pyvenv.cfg"],
    rmtreeLeft := none,
    venvCreate := .ok ⟨0, "", ""⟩,
    pipVersion := .ok ⟨0, "pip 24.0", ""⟩,
    getPipDl := .ok,
    getPipRun := .ok ⟨0, "", ""⟩,
    pipUpgrade := .ok ⟨0, "", ""⟩,
    manimInstall := .ok ⟨0, "", ""⟩,
    ffImport := .ok ⟨0, "ok", ""⟩,
    ffVersion := .ok ⟨0, "ffmpeg version 6.0", ""⟩,
    imageioInstall := .ok ⟨0, "", ""⟩ }

/-- A run in which `python -m venv` raises `TimeoutExpired`. -/
def envVenvTimeout : WEnv :=
  { envOk with venvCreate := .exn "Command timed out after 120 seconds" }

/-- A run that reaches step 5 and whose manim import probe raises
`TimeoutExpired`. -/
def envFfTimeout : WEnv :=
  { envOk with ffImport := .exn "Command timed out after 15 seconds" }

/-- A marker file is present, it parses, its referenced interpreter `"P"`
exists on disk, but the `import manim` probe of that interpreter fails. -/
def c1env : SetupEnv :=
  { markerExists := true,
    markerParse := some (some "P"),
    isfile := fun s => s == "P",
    manimProbe := fun _ =>
      .ok ⟨1, "", "ModuleNotFoundError: No module named manim"⟩ }

/-! ## C1 — setup-readiness gate -/

/-- C1 counterexample: the claim says `is_setup_complete` returns true
whenever the marker file is present and its referenced interpreter path
exists as a file.  In `c1env` both conditions hold, yet the function returns
false, because it additionally runs the `import manim` probe — importability
is re-verified on every call, not only at bootstrap or skip-validation. -/
theorem c1_counterexample :
    c1env.markerExists = true
      ∧ c1env.markerParse = some (some "P")
      ∧ c1env.isfile "P" = true
      ∧ (is_setup_complete c1env "D").1 = false := by
  refine ⟨rfl, rfl, by decide, by decide⟩

/-- C1 amended: `is_setup_complete` is a three-condition gate: it returns
true iff the marker file is present, the effective interpreter path (the
saved `python_exe` when the marker parses and that file exists, else the
current global) exists as a file, and the `import manim` probe on that
interpreter prints `ok`; it also rebinds the global `PYTHON_EXE` to the
effective path.  A marker that fails to parse does not by itself force a
false result. -/
theorem c1_amended (env : SetupEnv) (p : String) :
    (is_setup_complete env p).1
        = (env.markerExists && env.isfile (effectiveExe env p)
            && manimProbeOk env (effectiveExe env p))
      ∧ (is_setup_complete env p).2 = effectiveExe env p := by
  cases hm : env.markerExists with
  | false => simp [is_setup_complete, effectiveExe, hm]
  | true =>
    cases hp : env.markerParse with
    | none =>
      by_cases hf : env.isfile p
      · cases hpr : env.manimProbe p <;>
          simp [is_setup_complete, effectiveExe, manimProbeOk, hm, hp, hf, hpr]
      · simp [is_setup_complete, effectiveExe, manimProbeOk, hm, hp, hf]
    | some px =>
      by_cases hf1 : env.isfile (px.getD p)
      · cases hpr : env.manimProbe (px.getD p) <;>
          simp [is_setup_complete, effectiveExe, manimProbeOk, hm, hp, hf1, hpr]
      · by_cases hf2 : env.isfile p
        · cases hpr : env.manimProbe p <;>
            simp [is_setup_complete, effectiveExe, manimProbeOk, hm, hp, hf1, hf2, hpr]
        · simp [is_setup_complete, effectiveExe, manimProbeOk, hm, hp, hf1, hf2]

/-! ## C2 — halt-on-failure discipline -/

/-- C2 counterexample: the claim says that whenever a step fails the worker
marks that step's status `error`.  When environment creation fails by raising
(here a timeout of `python -m venv`), the run halts and writes no marker, but
the generic handler `_fail(msg)` is reached with no step key: the venv step
is left `active`, not `error`. -/
theorem c2_counterexample :
    (install_worker "C:\\Users\\u" "G" envVenvTimeout).st.get .venv = Status.active
      ∧ (install_worker "C:\\Users\\u" "G" envVenvTimeout).st.get .venv ≠ Status.error
      ∧ (install_worker "C:\\Users\\u" "G" envVenvTimeout).failKey = none
      ∧ (install_worker "C:\\Users\\u" "G" envVenvTimeout).failMsg.isSome = true
      ∧ (install_worker "C:\\Users\\u" "G" envVenvTimeout).marker = none := by
  decide

/-- C2 amended: the marker is written only when every step succeeded; when a
step fails through the explicit per-step path (`_fail` with a key) exactly
that step is marked `error`, all later steps stay `pending` and no marker is
written; when a step fails by raising (timeout, download error) the run still
halts without a marker, but no step at all is marked `error` — the failing
step keeps its `active` status. -/
theorem c2_amended (home g : String) (env : WEnv) :
    ((install_worker home g env).marker.isSome →
        (install_worker home g env).failMsg = none
          ∧ ∀ k, (install_worker home g env).st.get k = Status.done)
      ∧ (∀ k, (install_worker home g env).failKey = some k →
          (install_worker home g env).marker = none
            ∧ (install_worker home g env).st.get k = Status.error
            ∧ (∀ k2, k.idx < k2.idx →
                (install_worker home g env).st.get k2 = Status.pending)
            ∧ (∀ k2, k2 ≠ k →
                (install_worker home g env).st.get k2 ≠ Status.error))
      ∧ ((install_worker home g env).failMsg.isSome →
          (install_worker home g env).marker = none)
      ∧ ((install_worker home g env).failMsg.isSome →
          (install_worker home g env).failKey = none →
          ∀ k, (install_worker home g env).st.get k ≠ Status.error) := by
  have H := worker_master home g env
  simp only [WShape] at H
  rcases H with ⟨h1, h2, h3, h4, h5⟩ | ⟨h1, h2, h3, h4, h5⟩ | ⟨h1, h2, h3, h4, h5⟩ |
    ⟨h1, h2, h3, h4, h5⟩ | ⟨h1, h2, h3, h4, h5⟩ | ⟨h1, h2, h3, h4, h5⟩ |
    ⟨h1, h2, h3, h4, h5⟩ | ⟨h1, h2, h3, h4, h5⟩ | ⟨h1, h2, h3, h4, h5, -⟩ <;>
    refine ⟨fun hm => ⟨?_, ?_⟩, fun k hk => ?_, fun hf => ?_, fun hf hk => ?_⟩ <;>
    simp_all <;> try decide

/-- C2 witness: in a run whose `pip install manim` exits non-zero, the manim
step is `error`, the ffmpeg step is still `pending`, and no marker exists. -/
theorem c2_witness :
    (install_worker "H" "G" { envOk with manimInstall := .ok ⟨1, "", "boom"⟩ }).marker = none
      ∧ (install_worker "H" "G" { envOk with manimInstall := .ok ⟨1, "", "boom"⟩ }).st.get .manim
          = Status.error
      ∧ (install_worker "H" "G" { envOk with manimInstall := .ok ⟨1, "", "boom"⟩ }).st.get .ffmpeg
          = Status.pending := by
  have h := (c2_amended "H" "G" { envOk with manimInstall := .ok ⟨1, "", "boom"⟩ }).2.1
    .manim (by decide)
  exact ⟨h.1, h.2.1, h.2.2.1 .ffmpeg (by decide)⟩

/-! ## C3 — encoder verification never aborts (claimed) -/

/-- C3 counterexample: the claim says no outcome of the encoder-verification
step — including a probe timing out — aborts provisioning.  When the step-5
manim import probe raises `TimeoutExpired`, only `FileNotFoundError` is
caught, so the run aborts through the outer handler: the ffmpeg step is left
`active` (never `done`) and no Setup Record is written. -/
theorem c3_counterexample :
    (install_worker "C:\\Users\\u" "G" envFfTimeout).st.get .ffmpeg = Status.active
      ∧ (install_worker "C:\\Users\\u" "G" envFfTimeout).st.get .ffmpeg ≠ Status.done
      ∧ (install_worker "C:\\Users\\u" "G" envFfTimeout).marker = none
      ∧ (install_worker "C:\\Users\\u" "G" envFfTimeout).completed = false := by
  decide

/-- C3 amended: for every run that reaches the encoder-verification step, a
failing or absent system encoder probe (non-zero exit or `FileNotFoundError`)
and a failing fallback install (non-zero exit) never abort provisioning: the
step is marked done and the Setup Record is written — provided no step-5
subprocess raises an exception other than `FileNotFoundError` (and the
fallback install, when invoked, raises nothing); a raised exception such as a
probe timeout aborts the run without writing the record. -/
theorem c3_amended (home g : String) (env : WEnv)
    (hreach : (install_worker home g env).st.get .ffmpeg ≠ Status.pending)
    (hb1 : ∀ m, env.ffImport ≠ Proc.exn m)
    (hb2 : ∀ m, env.ffVersion ≠ Proc.exn m)
    (hb3 : ∀ m, env.imageioInstall ≠ Proc.exn m)
    (hb4 : ∀ m, env.imageioInstall ≠ Proc.fnf m) :
    (install_worker home g env).st.get .ffmpeg = Status.done
      ∧ (install_worker home g env).marker = some (bootstrapMarker home g)
      ∧ (install_worker home g env).completed = true
      ∧ (install_worker home g env).failMsg = none := by
  have H := worker_master home g env
  simp only [WShape] at H
  rcases H with ⟨h1, h2, h3, h4, h5⟩ | ⟨h1, h2, h3, h4, h5⟩ | ⟨h1, h2, h3, h4, h5⟩ |
    ⟨h1, h2, h3, h4, h5⟩ | ⟨h1, h2, h3, h4, h5⟩ | ⟨h1, h2, h3, h4, h5⟩ |
    ⟨h1, h2, h3, h4, h5⟩ | ⟨h1, h2, h3, h4, h5⟩ | ⟨h1, h2, h3, h4, h5, hc⟩
  · exact ⟨by rw [h1]; rfl, h2, h5, h4⟩
  · exact absurd (by rw [h1]; rfl) hreach
  · exact absurd (by rw [h1]; rfl) hreach
  · exact absurd (by rw [h1]; rfl) hreach
  · exact absurd (by rw [h1]; rfl) hreach
  · exact absurd (by rw [h1]; rfl) hreach
  · exact absurd (by rw [h1]; rfl) hreach
  · exact absurd (by rw [h1]; rfl) hreach
  · rcases hc with ⟨m, hm⟩ | ⟨m, hm⟩ | ⟨m, hm⟩ | ⟨m, hm⟩
    · exact absurd hm (hb1 m)
    · exact absurd hm (hb2 m)
    · exact absurd hm (hb3 m)
    · exact absurd hm (hb4 m)

/-- A run whose system `ffmpeg` binary is absent (`FileNotFoundError`) and
whose fallback install succeeds. -/
def envFfMissing : WEnv :=
  { envOk with
    ffVersion := .fnf "FileNotFoundError: ffmpeg",
    imageioInstall := .ok ⟨0, "", ""⟩ }

/-- C3 witness: a missing system encoder does not abort — the ffmpeg step is
done and the Setup Record is written. -/
theorem c3_witness :
    (install_worker "H" "G" envFfMissing).st.get .ffmpeg = Status.done
      ∧ (install_worker "H" "G" envFfMissing).marker
          = some (bootstrapMarker "H" "G") := by
  have h := c3_amended "H" "G" envFfMissing (by decide)
    (fun m h => Proc.noConfusion h) (fun m h => Proc.noConfusion h)
    (fun m h => Proc.noConfusion h) (fun m h => Proc.noConfusion h)
  exact ⟨h.1, h.2.1⟩

/-! ## C4 — replacement of a previous environment -/

/-- A run whose previous environment holds a file that
`shutil.rmtree(..., ignore_errors=True)` fails to delete (e.g. a locked DLL
on Windows); the error is silently ignored and the run continues. -/
def envRmtreeStuck : WEnv :=
  { envOk with
    venvDir0 := some ["old_pkg.dll"],
    rmtreeLeft := some ["old_pkg.dll"] }

/-- C4 counterexample: the claim says no file from the previous environment
survives into the fresh run's environment directory.  The removal uses
`shutil.rmtree(VENV_DIR, ignore_errors=True)` (line 489): a failed removal is
silently ignored and `python -m venv` then runs on the surviving directory.
Here the old file `old_pkg.dll` survives the removal, and the
environment-creation call observes a directory still containing it — a merge,
not wholesale replacement. -/
theorem c4_counterexample :
    envRmtreeStuck.venvDir0 = some ["old_pkg.dll"]
      ∧ Ev.createVenv (some ["old_pkg.dll"])
          ∈ (install_worker "H" "G" envRmtreeStuck).events
      ∧ (some ["old_pkg.dll"] : Option (List String)) ≠ none := by
  decide

/-- C4 amended: whenever a previous environment directory exists at worker
start, its removal is always attempted before creation — `rmtree` precedes
`createVenv` in every run whose trace reaches environment creation — and the
new environment is created on exactly the directory state the removal left:
when the removal fully succeeds nothing survives, but because removal errors
are silently ignored (`ignore_errors=True`), any files `rmtree` could not
delete survive into the fresh run's environment directory. -/
theorem c4_amended (home g : String) (env : WEnv) (fs : List String)
    (hdir : env.venvDir0 = some fs) :
    (∀ d, Ev.createVenv d ∈ (install_worker home g env).events
        → d = env.rmtreeLeft)
      ∧ (env.rmtreeLeft = none →
          ∀ d, Ev.createVenv d ∈ (install_worker home g env).events → d = none)
      ∧ ((∃ d, Ev.createVenv d ∈ (install_worker home g env).events) →
          ∃ l1 l2, (install_worker home g env).events = l1 ++ Ev.rmtreeVenv :: l2
            ∧ Ev.createVenv env.rmtreeLeft ∈ l2) := by
  have H := worker_events home g env
  have hsome : env.venvDir0.isSome = true := by rw [hdir]; rfl
  have hseg : venvSeg env = [Ev.rmtreeVenv, Ev.createVenv env.rmtreeLeft] := by
    simp [venvSeg, hsome]
  have hAll : ∀ d, Ev.createVenv d ∈ (install_worker home g env).events
      → d = env.rmtreeLeft := by
    rcases H with h | h | h
    · intro d hd; rw [h] at hd; simp at hd
    · rw [hseg] at h; intro d hd; rw [h] at hd; simp at hd; exact hd
    · rw [hseg] at h; intro d hd; rw [h] at hd; simp at hd; exact hd
  refine ⟨hAll, fun hn d hd => (hAll d hd).trans hn, ?_⟩
  rcases H with h | h | h
  · rintro ⟨d, hd⟩; rw [h] at hd; simp at hd
  · rw [hseg] at h
    intro _
    exact ⟨[Ev.mkdirApp], [Ev.createVenv env.rmtreeLeft], by rw [h], by simp⟩
  · rw [hseg] at h
    intro _
    exact ⟨[Ev.mkdirApp],
      [Ev.createVenv env.rmtreeLeft, Ev.writeMarker (bootstrapMarker home g)],
      by simp [h], by simp⟩

/-- C4 witness: in the all-success run with a pre-existing environment whose
removal fully succeeds, the trace removes the old directory before creating
the new one and creation sees an empty state. -/
theorem c4_witness :
    (∀ d, Ev.createVenv d ∈ (install_worker "H" "G" envOk).events
        → d = envOk.rmtreeLeft)
      ∧ (envOk.rmtreeLeft = none →
          ∀ d, Ev.createVenv d ∈ (install_worker "H" "G" envOk).events → d = none)
      ∧ ((∃ d, Ev.createVenv d ∈ (install_worker "H" "G" envOk).events) →
          ∃ l1 l2, (install_worker "H" "G" envOk).events = l1 ++ Ev.rmtreeVenv :: l2
            ∧ Ev.createVenv envOk.rmtreeLeft ∈ l2) :=
  c4_amended "H" "G" envOk ["pyvenv.cfg"] rfl

/-! ## C9 — marker `python_exe` is the current global, not the fresh venv -/

/-- C9: whenever a full bootstrap writes a marker, its `python_exe` field is
exactly the value the process-wide global `PYTHON_EXE` had when the worker
ran — so if the global was earlier rebound away from the default venv
interpreter path (by `is_setup_complete` loading an old marker, or by a prior
skip-validation), the freshly written record does not point at the freshly
provisioned environment's interpreter. -/
theorem c9_thm (home g : String) (env : WEnv) (m : MarkerJson)
    (h : (install_worker home g env).marker = some m) :
    List.lookup "python_exe" m = some (JVal.s g)
      ∧ (g ≠ PYTHON_EXE_init home →
          List.lookup "python_exe" m ≠ some (JVal.s (PYTHON_EXE_init home))) := by
  have H := worker_master home g env
  simp only [WShape] at H
  rcases H with ⟨-, h2, -, -, -⟩ | ⟨-, h2, -, -, -⟩ | ⟨-, h2, -, -, -⟩ |
    ⟨-, h2, -, -, -⟩ | ⟨-, h2, -, -, -⟩ | ⟨-, h2, -, -, -⟩ |
    ⟨-, h2, -, -, -⟩ | ⟨-, h2, -, -, -⟩ | ⟨-, h2, -, -, -, -⟩
  · rw [h2] at h
    obtain rfl : m = bootstrapMarker home g := (Option.some.inj h).symm
    constructor
    · rfl
    · intro hne hcontra
      rw [show List.lookup "python_exe" (bootstrapMarker home g)
            = some (JVal.s g) from rfl] at hcontra
      exact hne (JVal.s.inj (Option.some.inj hcontra))
  all_goals (rw [h2] at h; exact Option.noConfusion h)

/-- The old interpreter path a previously loaded marker rebound the global to. -/
def gOld : String := "C:\\OldPython\\python.exe"

/-- C9 witness: after a successful bootstrap run started with the global
rebound to `gOld`, the written record's `python_exe` is `gOld`, not the fresh
venv's interpreter. -/
theorem c9_witness :
    List.lookup "python_exe" (bootstrapMarker "H" gOld) = some (JVal.s gOld)
      ∧ List.lookup "python_exe" (bootstrapMarker "H" gOld)
          ≠ some (JVal.s (PYTHON_EXE_init "H")) := by
  have h := c9_thm "H" gOld envOk (bootstrapMarker "H" gOld) (by decide)
  exact ⟨h.1, h.2 (by decide)⟩

/-! ## C5 — failed skip-validation leaves state untouched -/

/-- Modelled from the spec: the claim's "bounded stderr tail" — the last 200
characters of the captured standard-error text.  The source has no such
computation; this definition exists only to compare the claim's wording with
what the code actually reports. -/
def specStderrTail (s : String) : String :=
  String.mk ((s.toList.reverse.take 200).reverse)

/-- A stderr text longer than 200 characters whose first 200 characters
differ from its last 200 characters. -/
def c5err : String := "A" ++ String.mk (List.replicate 250 'b')

set_option maxRecDepth 8192 in
/-- C5 counterexample: the claim describes the reported diagnostic as a
bounded stderr *tail*.  The code reports `result.stderr[:200]` — a 200-character
*prefix* — so on a long stderr the reported text differs from the last 200
characters.  (The prior Setup Record is indeed left unchanged.) -/
theorem c5_counterexample :
    (skip_validate "C:\\py\\python.exe" (Proc.ok ⟨1, "", c5err⟩)
        (some (skipMarker "C:\\old\\python.exe")) "G").reported
        = some (String.take c5err 200)
      ∧ String.take c5err 200 ≠ specStderrTail c5err
      ∧ (skip_validate "C:\\py\\python.exe" (Proc.ok ⟨1, "", c5err⟩)
          (some (skipMarker "C:\\old\\python.exe")) "G").marker
          = some (skipMarker "C:\\old\\python.exe") := by
  refine ⟨by decide, by decide, by decide⟩

/-- C5 amended: for every skip-validation whose probe does not print `ok`
(and for every probe that raises), the marker file keeps its previous state
byte for byte, the global interpreter path is not rebound, no success is
signalled, and the reported diagnostic is the first 200 characters of stderr
(a fixed message when stderr is empty), or the exception's string form. -/
theorem c5_amended (chosen : String) (r : RunRes) (prior : Option MarkerJson)
    (g : String) (h : pyStrip r.stdout ≠ "ok") :
    ((skip_validate chosen (Proc.ok r) prior g).marker = prior
      ∧ (skip_validate chosen (Proc.ok r) prior g).pythonExe = g
      ∧ (skip_validate chosen (Proc.ok r) prior g).success = false
      ∧ (skip_validate chosen (Proc.ok r) prior g).reported
          = some (if r.stderr != "" then String.take r.stderr 200
                  else "manim import edilemedi"))
    ∧ (∀ em prior2 g2,
        (skip_validate chosen (Proc.exn em) prior2 g2).marker = prior2
          ∧ (skip_validate chosen (Proc.exn em) prior2 g2).reported = some em
          ∧ (skip_validate chosen (Proc.exn em) prior2 g2).success = false) := by
  have hb : (pyStrip r.stdout == "ok") = false := beq_eq_false_iff_ne.mpr h
  constructor
  · simp [skip_validate, hb]
  · intro em prior2 g2
    exact ⟨rfl, rfl, rfl⟩

/-- C5 witness: a probe that exits non-zero with stderr `boom` leaves an
absent marker absent and reports the captured text. -/
theorem c5_witness :
    (skip_validate "C:\\py\\python.exe" (Proc.ok ⟨1, "", "boom"⟩) none "G").marker = none
      ∧ (skip_validate "C:\\py\\python.exe" (Proc.ok ⟨1, "", "boom"⟩) none "G").reported
          = some (if ("boom" : String) != "" then String.take "boom" 200
                  else "manim import edilemedi") := by
  have h := c5_amended "C:\\py\\python.exe" ⟨1, "", "boom"⟩ none "G" (by decide)
  exact ⟨h.1.1, h.1.2.2.2⟩

/-! ## C6 — marker shape for both writers -/

/-- C6: every marker the program writes — by a successful full bootstrap or a
successful skip-validation — is an object with keys `python_version`,
`venv_dir`, `python_exe`; the bootstrap record carries the configured version
string and no `skipped_setup` key, the skip record carries the literal
`custom` and `skipped_setup = true`. -/
theorem c6_thm (home g : String) (env : WEnv) (m : MarkerJson)
    (chosen : String) (probe : Proc) (prior : Option MarkerJson) (g2 : String)
    (m2 : MarkerJson)
    (hb : (install_worker home g env).marker = some m)
    (hs : (skip_validate chosen probe prior g2).success = true)
    (hm2 : (skip_validate chosen probe prior g2).marker = some m2) :
    m.map Prod.fst = ["python_version", "venv_dir", "python_exe"]
      ∧ List.lookup "python_version" m = some (JVal.s PYTHON_VERSION)
      ∧ List.lookup "skipped_setup" m = none
      ∧ m2.map Prod.fst = ["python_version", "venv_dir", "python_exe", "skipped_setup"]
      ∧ List.lookup "python_version" m2 = some (JVal.s "custom")
      ∧ List.lookup "skipped_setup" m2 = some (JVal.b true) := by
  have H := worker_master home g env
  simp only [WShape] at H
  have hm : m = bootstrapMarker home g := by
    rcases H with ⟨-, h2, -, -, -⟩ | ⟨-, h2, -, -, -⟩ | ⟨-, h2, -, -, -⟩ |
      ⟨-, h2, -, -, -⟩ | ⟨-, h2, -, -, -⟩ | ⟨-, h2, -, -, -⟩ |
      ⟨-, h2, -, -, -⟩ | ⟨-, h2, -, -, -⟩ | ⟨-, h2, -, -, -, -⟩
    · rw [h2] at hb; exact (Option.some.inj hb).symm
    all_goals (rw [h2] at hb; exact Option.noConfusion hb)
  have hm2' : m2 = skipMarker chosen := by
    cases probe with
    | ok r =>
      by_cases ho : (pyStrip r.stdout == "ok") = true
      · have heq : skip_validate chosen (Proc.ok r) prior g2
            = ⟨some (skipMarker chosen), chosen, true, none⟩ := by
          simp [skip_validate, ho]
        rw [heq] at hm2
        exact (Option.some.inj hm2).symm
      · have heq : (skip_validate chosen (Proc.ok r) prior g2).success = false := by
          simp [skip_validate, Bool.eq_false_iff.mpr ho]
        rw [heq] at hs
        exact Bool.noConfusion hs
    | fnf m3 => simp [skip_validate] at hs
    | exn m3 => simp [skip_validate] at hs
  subst hm
  subst hm2'
  exact ⟨rfl, rfl, rfl, rfl, rfl, rfl⟩

/-- C6 witness: the two writers at concrete inputs show the claimed key
shapes. -/
theorem c6_witness :
    List.lookup "skipped_setup" (bootstrapMarker "H" "G") = none
      ∧ List.lookup "python_version" (bootstrapMarker "H" "G")
          = some (JVal.s PYTHON_VERSION)
      ∧ List.lookup "skipped_setup" (skipMarker "C:\\my\\python.exe")
          = some (JVal.b true)
      ∧ List.lookup "python_version" (skipMarker "C:\\my\\python.exe")
          = some (JVal.s "custom") := by
  have h := c6_thm "H" "G" envOk (bootstrapMarker "H" "G") "C:\\my\\python.exe"
    (Proc.ok ⟨0, "ok", ""⟩) none "G2" (skipMarker "C:\\my\\python.exe")
    (by decide) (by decide) (by decide)
  exact ⟨h.2.2.1, h.2.1, h.2.2.2.2.2, h.2.2.2.2.1⟩

/-! ## C7 — the interpreter locator is total and returns `none` on exhaustion -/

lemma findPyLoop_some (env : LocEnv) :
    ∀ l p, findPyLoop env l = some p →
      some p ∈ l ∧ p ≠ "" ∧ env.isfile p = true ∧ candidateAccepts env p = true := by
  intro l
  induction l with
  | nil => intro p h; simp [findPyLoop] at h
  | cons c rest ih =>
    intro p h
    cases c with
    | none =>
      have h2 : findPyLoop env rest = some p := by simpa [findPyLoop] using h
      have h3 := ih p h2
      exact ⟨List.mem_cons_of_mem _ h3.1, h3.2⟩
    | some q =>
      by_cases hcond : (q != "" && env.isfile q) = true
      · by_cases hacc : candidateAccepts env q = true
        · have hqp : some q = some p := by
            simpa [findPyLoop, hcond, hacc] using h
          obtain rfl : q = p := Option.some.inj hqp
          refine ⟨List.mem_cons_self _ _, ?_, ?_, hacc⟩
          · exact bne_iff_ne.mp ((Bool.and_eq_true _ _).mp hcond).1
          · exact ((Bool.and_eq_true _ _).mp hcond).2
        · have h2 : findPyLoop env rest = some p := by
            simpa [findPyLoop, hcond, hacc] using h
          have h3 := ih p h2
          exact ⟨List.mem_cons_of_mem _ h3.1, h3.2⟩
      · have h2 : findPyLoop env rest = some p := by
          simpa [findPyLoop, hcond] using h
        have h3 := ih p h2
        exact ⟨List.mem_cons_of_mem _ h3.1, h3.2⟩

lemma findPyLoop_none (env : LocEnv) :
    ∀ l, (∀ c ∈ l, ∀ p, c = some p →
        ¬(p ≠ "" ∧ env.isfile p = true ∧ candidateAccepts env p = true)) →
      findPyLoop env l = none := by
  intro l
  induction l with
  | nil => intro _; rfl
  | cons c rest ih =>
    intro h
    have hrest := ih (fun c2 hc2 => h c2 (List.mem_cons_of_mem _ hc2))
    cases c with
    | none => simpa [findPyLoop] using hrest
    | some q =>
      by_cases hcond : (q != "" && env.isfile q) = true
      · have hnacc : ¬ candidateAccepts env q = true := by
          intro hacc
          exact h (some q) (List.mem_cons_self _ _) q rfl
            ⟨bne_iff_ne.mp ((Bool.and_eq_true _ _).mp hcond).1,
             ((Bool.and_eq_true _ _).mp hcond).2, hacc⟩
        simpa [findPyLoop, hcond, hnacc] using hrest
      · simpa [findPyLoop, hcond] using hrest

/-- C7: the interpreter locator is a total function of its probe results (it
never raises — every probe failure just moves to the next candidate): when no
candidate is a nonempty existing file accepted by the version test it returns
`none`, and any returned path is one of the candidates, a nonempty existing
file, whose probe reported Python 3 with minor version at least 8. -/
theorem c7_thm (env : LocEnv) :
    ((∀ c ∈ candidates env, ∀ p, c = some p →
        ¬(p ≠ "" ∧ env.isfile p = true ∧ candidateAccepts env p = true)) →
      find_system_python env = none)
      ∧ (∀ p, find_system_python env = some p →
          some p ∈ candidates env ∧ p ≠ "" ∧ env.isfile p = true
            ∧ candidateAccepts env p = true) := by
  constructor
  · intro h
    exact findPyLoop_none env (candidates env) h
  · intro p h
    exact findPyLoop_some env (candidates env) p h

/-- All which-lookups miss (one returns a falsy empty string), no candidate
path exists on disk, and every probe raises. -/
def c7wEnv : LocEnv :=
  { whichPython := none, whichPython3 := none, whichPy := some "",
    localAppData := "", isfile := fun _ => false,
    probe := fun _ => .exn "probe raised" }

/-- C7 witness: with every candidate missing the locator returns `none`
rather than raising. -/
theorem c7_witness : find_system_python c7wEnv = none := by
  apply (c7_thm c7wEnv).1
  intro c hc p hp hcontra
  exact absurd hcontra.2.1 (by simp [c7wEnv])

/-! ## C8 — headless success test is file existence, not exit code -/

lemma success_ne_fail (op : String) :
    ("✓ Video oluşturuldu: " ++ op) ≠ "✗ Video oluşturulamadı." := by
  intro h
  have h2 := congrArg String.data h
  rw [String.data_append] at h2
  have h3 := congrArg List.head? h2
  rw [List.head?_append] at h3
  have h4 : ("✓ Video oluşturuldu: ".data).head? = some '✓' := by decide
  have h5 : ("✗ Video oluşturulamadı.".data).head? = some '✗' := by decide
  rw [h4, h5] at h3
  simp at h3

/-- C8: for a headless run on an existing SVG with completed setup, the
success line is printed iff the file `<stem>_animation.mp4` exists in the
output directory after the render call; when it does not, the failure line is
printed; and the output is unchanged under any renderer exit code (the exit
code is never the success test).  The embedded `_process_svg_cli` is a total
function: no exception escapes it. -/
theorem c8_thm (home g : String) (w : CliWorld) (svg : String)
    (hfile : w.isfile svg = true)
    (hsetup : (is_setup_complete w.setupEnv g).1 = true) :
    ((("✓ Video oluşturuldu: " ++ outputPath home svg)
        ∈ (process_svg_cli home g w svg).printed)
      ↔ w.outputExistsAfter (outputPath home svg) = true)
    ∧ (w.outputExistsAfter (outputPath home svg) = false →
        (process_svg_cli home g w svg).printed = ["✗ Video oluşturulamadı."])
    ∧ (∀ rc : Int,
        process_svg_cli home g
          { isfile := w.isfile, setupEnv := w.setupEnv, renderExit := rc,
            outputExistsAfter := w.outputExistsAfter } svg
          = process_svg_cli home g w svg) := by
  cases hout : w.outputExistsAfter (outputPath home svg) with
  | true =>
    refine ⟨?_, ?_, fun rc => rfl⟩
    · simp [process_svg_cli, hfile, hsetup, hout]
    · intro hcontra
      simp at hcontra
  | false =>
    refine ⟨?_, ?_, fun rc => rfl⟩
    · constructor
      · intro hmem
        simp [process_svg_cli, hfile, hsetup, hout] at hmem
        exact absurd hmem (success_ne_fail _)
      · intro hcontra
        simp at hcontra
    · intro _
      simp [process_svg_cli, hfile, hsetup, hout]

/-- A setup environment on which `is_setup_complete` returns true. -/
def okSetupEnv : SetupEnv :=
  { markerExists := true, markerParse := some (some "P"),
    isfile := fun _ => true, manimProbe := fun _ => .ok ⟨0, "ok", ""⟩ }

/-- A headless world where the SVG exists, setup is complete, the renderer
exits non-zero, and the output file nevertheless appears. -/
def c8World : CliWorld :=
  { isfile := fun _ => true, setupEnv := okSetupEnv, renderExit := 1,
    outputExistsAfter := fun _ => true }

/-- C8 witness: with the output file present, the success line is printed
even though the renderer exited non-zero. -/
theorem c8_witness :
    ("✓ Video oluşturuldu: " ++ outputPath "H" "logo.svg")
      ∈ (process_svg_cli "H" "G" c8World "logo.svg").printed := by
  have h := c8_thm "H" "G" c8World "logo.svg" (by decide) (by decide)
  exact h.1.mpr (by decide)

/-! ## C10 — argument dispatch of `main` -/

/-- A headless world whose filesystem contains no file at all. -/
def c10World : CliWorld :=
  { isfile := fun _ => false, setupEnv := okSetupEnv, renderExit := 0,
    outputExistsAfter := fun _ => false }

/-- C10: `--cli` with no second argument yields only the usage line (no
conversion, no state change is modelled in the `usage` outcome); any first
argument other than `--setup` and `--cli` — including an unrecognized flag —
is treated as an SVG path; and for a nonexistent path the file-not-found line
is printed with the setup-completeness check never consulted. -/
theorem c10_thm (home g : String) (w : CliWorld) :
    (mainDispatch home g w ["--cli"]
        = MainOut.usage "Kullanım: python QuickAnimations.py --cli \"dosya.svg\"")
      ∧ (∀ arg rest, arg ≠ "--setup" → arg ≠ "--cli" →
          mainDispatch home g w (arg :: rest)
            = MainOut.cliRun arg (process_svg_cli home g w arg))
      ∧ (∀ p, w.isfile p = false →
          process_svg_cli home g w p
            = ⟨["Hata: Dosya bulunamadı: " ++ p], false, false, g⟩) := by
  refine ⟨rfl, ?_, ?_⟩
  · intro arg rest h1 h2
    simp [mainDispatch, h1, h2]
  · intro p hp
    simp [process_svg_cli, hp]

/-- C10 witness: the three behaviours at concrete inputs. -/
theorem c10_witness :
    mainDispatch "H" "G" c8World ["--cli"]
        = MainOut.usage "Kullanım: python QuickAnimations.py --cli \"dosya.svg\""
      ∧ mainDispatch "H" "G" c8World ["--help"]
          = MainOut.cliRun "--help" (process_svg_cli "H" "G" c8World "--help")
      ∧ process_svg_cli "H" "G" c10World "missing.svg"
          = ⟨["Hata: Dosya bulunamadı: " ++ "missing.svg"], false, false, "G"⟩ := by
  have h := c10_thm "H" "G" c8World
  have h2 := c10_thm "H" "G" c10World
  exact ⟨h.1, h.2.1 "--help" [] (by decide) (by decide),
    h2.2.2 "missing.svg" (by decide)⟩

end QuickAnimations
